import Mathlib

/-!
Verification of the SecureOps360 enrichment-and-scoring pipeline.

The Python services are shallowly embedded:
* dictionaries of numeric features become association lists `List (String × ℚ)`
  with `fget` mirroring `dict.get(key, default)`;
* float arithmetic is modelled exactly over `ℚ` (and `ℝ` where the sigmoid of
  the model scorer requires `Real.exp`);
* optional dictionary entries become `Option` fields;
* clock reads (`datetime.now`) become an explicit `Clock` argument;
* `uuid.uuid4()` becomes an explicit `fresh : String` argument;
* a provider call that may fail becomes an `Except Unit` argument.
-/

namespace SecureOps

/-- Feature dictionaries of `scorer-svc` (`Dict[str, float]`). -/
abbrev Features := List (String × ℚ)

/-- `features.get(key, default)`. -/
def fget (fs : Features) (k : String) (d : ℚ) : ℚ :=
  (fs.lookup k).getD d

/-- Whether `pat` is a leading segment of `s` (on character lists). -/
def startsWithL : List Char → List Char → Bool
  | [], _ => true
  | _ :: _, [] => false
  | a :: as, b :: bs => a == b && startsWithL as bs

/-- Python's `pat in s` substring test, on character lists. -/
def containsL (s pat : List Char) : Bool :=
  match s with
  | [] => startsWithL pat []
  | _ :: rest => startsWithL pat s || containsL rest pat

/-- `str.lower()` restricted to ASCII, as used on action/resource strings. -/
def lowerStr (s : String) : List Char :=
  s.toList.map fun ch => if ch.isUpper then Char.ofNat (ch.toNat + 32) else ch

/-! ## Data attached to events (enricher output consumed by the scorer) -/

/-- `geo` sub-bundle produced by `GeoLocationService`. -/
structure GeoData where
  country_code : String
  asn : ℚ
  org : String
deriving DecidableEq

/-- `threat_intel` sub-bundle produced by `ThreatIntelligenceService`. -/
structure TIData where
  ip_rep : String
  rep_score : ℚ
  feeds : List String
deriving DecidableEq

/-- `asset_context` sub-bundle produced by `AssetContextService`. -/
structure AssetData where
  environment : String
  criticality : ℚ
  owner : String
  tags : List (String × String)
deriving DecidableEq

/-- The enrichment bundle handed to the scorer (`enrichments` dict);
each sub-bundle key may be absent. -/
structure Enrichments where
  threat_intel : Option TIData := none
  geo : Option GeoData := none
  asset_context : Option AssetData := none
deriving DecidableEq

/-- The fields of the base event read by `FeatureExtractor.extract_features`. -/
structure ScEvent where
  action : Option String := none
  resource_type : Option String := none
  severity_hint : Option ℚ := none
deriving DecidableEq

/-- The wall-clock values read by `datetime.now(timezone.utc)` during
feature extraction: `now.hour` and `now.weekday()`. -/
structure Clock where
  hour : ℕ
  weekday : ℕ
deriving DecidableEq

/-- `FeatureExtractor.feature_mappings['high_risk_countries']`. -/
def high_risk_countries : List String := ["CN", "RU", "KP", "IR", "XX"]

/-- `FeatureExtractor.feature_mappings['critical_resources']`. -/
def critical_resources : List String := ["database", "s3", "rds"]

/-- `FeatureExtractor.extract_features` (the non-degraded path): builds the
feature dictionary in the source's insertion order. -/
def extract_features (c : Clock) (e : ScEvent) (enr : Enrichments) : Features :=
  let action := lowerStr (e.action.getD "")
  let rtype := lowerStr (e.resource_type.getD "")
  [ ("asn", (enr.geo.map GeoData.asn).getD 0),
    ("is_high_risk_country",
      if high_risk_countries.contains ((enr.geo.map GeoData.country_code).getD "") then 1 else 0),
    ("rep_score", ((enr.threat_intel.map TIData.rep_score).getD 50) / 100),
    ("is_malicious",
      if (enr.threat_intel.map TIData.ip_rep).getD "" = "malicious" then 1 else 0),
    ("is_suspicious",
      if (enr.threat_intel.map TIData.ip_rep).getD "" = "suspicious" then 1 else 0),
    ("asset_criticality", ((enr.asset_context.map AssetData.criticality).getD 1) / 5),
    ("is_prod_environment",
      if (enr.asset_context.map AssetData.environment).getD "" = "prod" then 1 else 0),
    ("hour_of_day", (c.hour : ℚ) / 24),
    ("day_of_week", (c.weekday : ℚ) / 7),
    ("is_weekend", if 5 ≤ c.weekday then 1 else 0),
    ("is_business_hours", if 9 ≤ c.hour ∧ c.hour ≤ 17 then 1 else 0),
    ("is_login_action", if containsL action "login".toList then 1 else 0),
    ("is_failed_action",
      if containsL action "failed".toList || containsL action "fail".toList then 1 else 0),
    ("is_admin_action",
      if containsL action "admin".toList || containsL action "root".toList then 1 else 0),
    ("is_critical_resource", if critical_resources.contains (String.mk rtype) then 1 else 0),
    ("severity_hint", (e.severity_hint.getD 1) / 5) ]

/-! ## Rule engine -/

/-- One entry of `RuleEngine.rules`. -/
structure SRule where
  name : String
  cond : Features → Bool
  score : ℕ

/-- `RuleEngine.rules`, in source order. -/
def rules : List SRule :=
  [ ⟨"high_risk_country_admin",
      fun f => decide (fget f "is_high_risk_country" 0 = 1 ∧ fget f "is_admin_action" 0 = 1), 40⟩,
    ⟨"malicious_ip_access",
      fun f => decide (fget f "is_malicious" 0 = 1), 50⟩,
    ⟨"failed_login_suspicious_ip",
      fun f => decide (fget f "is_failed_action" 0 = 1 ∧ fget f "is_suspicious" 0 = 1), 30⟩,
    ⟨"critical_resource_access",
      fun f => decide (fget f "is_critical_resource" 0 = 1 ∧ fget f "is_prod_environment" 0 = 1), 20⟩,
    ⟨"weekend_admin_activity",
      fun f => decide (fget f "is_weekend" 0 = 1 ∧ fget f "is_admin_action" 0 = 1), 15⟩,
    ⟨"high_severity_event",
      fun f => decide (8/10 ≤ fget f "severity_hint" 0), 25⟩,
    ⟨"off_hours_activity",
      fun f => decide (fget f "is_business_hours" 0 = 0 ∧ fget f "is_critical_resource" 0 = 1), 10⟩ ]

/-- The accumulation loop of `RuleEngine.calculate_rule_score`:
running total and triggered names, in evaluation order. -/
def ruleLoop (fs : Features) : List SRule → ℕ → List String → ℕ × List String
  | [], t, ns => (t, ns)
  | r :: rest, t, ns =>
    if r.cond fs then ruleLoop fs rest (t + r.score) (ns ++ [r.name])
    else ruleLoop fs rest t ns

/-- `RuleEngine.calculate_rule_score`: capped total and triggered rule names. -/
def calculate_rule_score (fs : Features) : ℕ × List String :=
  let res := ruleLoop fs rules 0 []
  (min res.1 100, res.2)

lemma ruleLoop_spec (fs : Features) (l : List SRule) (t : ℕ) (ns : List String) :
    ruleLoop fs l t ns =
      (t + ((l.filter fun r => r.cond fs).map SRule.score).sum,
        ns ++ (l.filter fun r => r.cond fs).map SRule.name) := by
  induction l generalizing t ns with
  | nil => simp [ruleLoop]
  | cons r rest ih =>
    by_cases h : r.cond fs = true
    · rw [ruleLoop, if_pos h, ih]
      simp only [List.filter_cons, h, if_true, List.map_cons, List.sum_cons, Prod.mk.injEq]
      constructor
      · ring
      · simp
    · rw [ruleLoop, if_neg (by simp [h]), ih]
      simp only [List.filter_cons, h, if_false, Bool.false_eq_true]

/-- C1: for every feature vector the rule engine returns the sum of the points
of the rules whose conditions hold, capped at 100, and the triggered list is
the triggered rule names in the fixed table order
high_risk_country_admin, malicious_ip_access, failed_login_suspicious_ip,
critical_resource_access, weekend_admin_activity, high_severity_event,
off_hours_activity. -/
theorem rule_score_cap_and_order (fs : Features) :
    (calculate_rule_score fs).1 =
        min (((rules.filter fun r => r.cond fs).map SRule.score).sum) 100 ∧
      (calculate_rule_score fs).2 = (rules.filter fun r => r.cond fs).map SRule.name ∧
      rules.map SRule.name =
        ["high_risk_country_admin", "malicious_ip_access", "failed_login_suspicious_ip",
         "critical_resource_access", "weekend_admin_activity", "high_severity_event",
         "off_hours_activity"] := by
  refine ⟨?_, ?_, by decide⟩
  · simp [calculate_rule_score, ruleLoop_spec]
  · simp [calculate_rule_score, ruleLoop_spec]

/-! ## Weighted model scorer (`MLModel`) -/

/-- `MLModel.feature_weights`, in source order (0.4 = 2/5, etc.). -/
def feature_weights : List (String × ℚ) :=
  [ ("is_malicious", 2/5),
    ("rep_score", 3/10),
    ("is_high_risk_country", 1/5),
    ("asset_criticality", 1/4),
    ("is_prod_environment", 3/20),
    ("is_admin_action", 3/10),
    ("is_failed_action", 1/5),
    ("is_business_hours", -(1/10)),
    ("severity_hint", 1/5),
    ("is_critical_resource", 3/10),
    ("is_suspicious", 1/4) ]

/-- One iteration of the `MLModel.predict` loop: a weight whose feature name
is present contributes `features[feature] * weight`, else nothing. -/
def wterm (fs : Features) (p : String × ℚ) : ℚ :=
  match fs.lookup p.1 with
  | some v => v * p.2
  | none => 0

/-- The `raw_score` accumulated by `MLModel.predict`. -/
def raw_score (fs : Features) : ℚ :=
  (feature_weights.map (wterm fs)).sum

/-- The `weights_used` counter of `MLModel.predict`. -/
def weights_used (fs : Features) : ℕ :=
  (feature_weights.filter fun p => (fs.lookup p.1).isSome).length

/-- The normalized raw score `raw_score / max(weights_used * 0.1, 1.0)`. -/
def rawNorm (fs : Features) : ℚ :=
  raw_score fs / max ((weights_used fs : ℚ) * (1/10)) 1

/-- The logistic transform `1 / (1 + np.exp(-raw_score))`. -/
noncomputable def sigmoid (x : ℝ) : ℝ := 1 / (1 + Real.exp (-x))

/-- `model_score` of `MLModel.predict`: sigmoid of the normalized raw score
scaled to 0–100 when any weighted feature matched, else the neutral 50. -/
noncomputable def predict_model_score (fs : Features) : ℝ :=
  if 0 < weights_used fs then 100 * sigmoid ((rawNorm fs : ℚ) : ℝ) else 50

/-- `feature_completeness` of `MLModel.predict` (0 on an empty dict). -/
def feature_completeness (fs : Features) : ℚ :=
  if fs.length = 0 then 0
  else ((fs.filter fun p => decide (p.2 ≠ 0)).length : ℚ) / fs.length

/-- `confidence` of `MLModel.predict`: `min(0.3 + completeness * 0.7, 1.0)`. -/
def predict_confidence (fs : Features) : ℚ :=
  min (3/10 + feature_completeness fs * (7/10)) 1

/-! ## Score fusion (`RiskScorer.score_event`) -/

/-- Python's `int()` on a float: truncation toward zero. -/
noncomputable def pytrunc (x : ℝ) : ℤ := if 0 ≤ x then ⌊x⌋ else -⌊-x⌋

/-- `min(int(model_score * 0.7 + rule_score * 0.3), 100)`. -/
noncomputable def fuse_scores (m r : ℝ) : ℤ :=
  min (pytrunc (m * (7/10) + r * (3/10))) 100

/-- The scoring fields assembled by `RiskScorer.score_event`. -/
structure ScoringResult where
  model_score : ℝ
  rule_score : ℕ
  final_score : ℤ
  confidence : ℚ
  triggered_rules : List String

/-- `RiskScorer.score_event` downstream of feature extraction (the features
argument is the dict `FeatureExtractor.extract_features` returned, which is
empty when extraction degraded). -/
noncomputable def score_from_features (fs : Features) : ScoringResult :=
  let rr := calculate_rule_score fs
  let m := predict_model_score fs
  { model_score := m,
    rule_score := rr.1,
    final_score := fuse_scores m (rr.1 : ℝ),
    confidence := predict_confidence fs,
    triggered_rules := rr.2 }

/-- `RiskScorer.score_event` on the non-degraded extraction path. -/
noncomputable def score_event (c : Clock) (e : ScEvent) (enr : Enrichments) : ScoringResult :=
  score_from_features (extract_features c e enr)

/-- C2: for model and rule scores in [0,100], fusion returns
`floor(min(model*0.7 + rule*0.3, 100))`, an integer in [0,100]
(determinism is immediate since `fuse_scores` is a function of its
two arguments). -/
theorem fusion_floor_bounds (m r : ℝ) (h0m : 0 ≤ m) (h1m : m ≤ 100)
    (h0r : 0 ≤ r) (h1r : r ≤ 100) :
    fuse_scores m r = ⌊min (m * (7/10) + r * (3/10)) 100⌋ ∧
      0 ≤ fuse_scores m r ∧ fuse_scores m r ≤ 100 := by
  have hx0 : (0:ℝ) ≤ m * (7/10) + r * (3/10) := by positivity
  have hm' : m * (7/10) ≤ 100 * (7/10) :=
    mul_le_mul_of_nonneg_right h1m (by norm_num)
  have hr' : r * (3/10) ≤ 100 * (3/10) :=
    mul_le_mul_of_nonneg_right h1r (by norm_num)
  have hx100 : m * (7/10) + r * (3/10) ≤ 100 := by linarith
  have hfl : (⌊m * (7/10) + r * (3/10)⌋ : ℤ) ≤ 100 := by
    have := Int.floor_le_floor (α := ℝ) hx100
    simpa using this
  have htr : pytrunc (m * (7/10) + r * (3/10)) = ⌊m * (7/10) + r * (3/10)⌋ := by
    simp [pytrunc, hx0]
  refine ⟨?_, ?_, ?_⟩
  · rw [fuse_scores, htr, min_eq_left hx100, min_eq_left hfl]
  · rw [fuse_scores, htr]
    exact le_min (Int.floor_nonneg.mpr hx0) (by norm_num)
  · exact min_le_right _ _

/-- Witness for C2 at model score 80 and rule score 50. -/
theorem fusion_floor_bounds_witness :
    (0:ℝ) ≤ 80 ∧ (80:ℝ) ≤ 100 ∧ (0:ℝ) ≤ 50 ∧ (50:ℝ) ≤ 100 ∧
      (fuse_scores 80 50 = ⌊min ((80:ℝ) * (7/10) + 50 * (3/10)) 100⌋ ∧
        0 ≤ fuse_scores 80 50 ∧ fuse_scores 80 50 ≤ 100) :=
  ⟨by norm_num, by norm_num, by norm_num, by norm_num,
    fusion_floor_bounds 80 50 (by norm_num) (by norm_num) (by norm_num) (by norm_num)⟩

/-! ## Event normalizer (`lambda-ingest/index.py`) -/

/-- A raw event as a partial mapping: `none` models an absent key. -/
structure RawEvent where
  event_id : Option String := none
  source : Option String := none
  actor : Option (List (String × String)) := none
  action : Option String := none
  resource : Option (List (String × String)) := none
  severity_hint : Option ℤ := none
  payload : Option (List (String × String)) := none
deriving DecidableEq

/-- `validate_event_schema`: the required top-level keys are present. -/
def validate_event_schema (raw : RawEvent) : Bool :=
  raw.source.isSome && raw.actor.isSome && raw.action.isSome && raw.resource.isSome

/-- Python truthiness of an optional string (`if actor_ip:`). -/
def truthyS : Option String → Bool
  | some s => !(s == "")
  | none => false

/-- The normalized dictionary built by `normalize_event`. -/
structure NormalizedEvent where
  event_id : String
  source : Option String
  received_at : String
  actor : List (String × String)
  action : Option String
  resource : Option (List (String × String))
  severity_hint : ℤ
  payload : List (String × String)
  schema_ver : String
deriving DecidableEq

/-- `normalize_event(raw_event, source_ip)`; `fresh` stands for the
`str(uuid.uuid4())` draw and `now` for the wall-clock read. -/
def normalize_event (raw : RawEvent) (source_ip : Option String)
    (fresh : String) (now : String) : NormalizedEvent :=
  let event_id := raw.event_id.getD fresh
  let actor0 := raw.actor.getD []
  let actor :=
    if (actor0.lookup "ip").isNone && truthyS source_ip
    then actor0 ++ [("ip", source_ip.getD "")] else actor0
  { event_id := event_id
    source := raw.source
    received_at := now
    actor := actor
    action := raw.action
    resource := raw.resource
    severity_hint := raw.severity_hint.getD 1
    payload := raw.payload.getD []
    schema_ver := "1.0" }

/-- A raw event whose required keys are present but hold empty values and an
out-of-range severity. -/
def rawBad : RawEvent :=
  { event_id := some "", source := some "", actor := some [], action := some "",
    resource := some [], severity_hint := some 9 }

/-- Counterexample to C7: `rawBad` passes validation yet normalizes to an
event with empty `event_id`, `source`, `action` and severity 9 (unclamped). -/
theorem normalized_empty_fields_cex :
    validate_event_schema rawBad = true ∧
      (normalize_event rawBad none "u-1" "t0").event_id = "" ∧
      (normalize_event rawBad none "u-1" "t0").source = some "" ∧
      (normalize_event rawBad none "u-1" "t0").action = some "" ∧
      (normalize_event rawBad none "u-1" "t0").severity_hint = 9 ∧
      ¬((normalize_event rawBad none "u-1" "t0").severity_hint ≤ 5) := by
  decide

/-- C7 (amended): a validated raw event normalizes to non-empty
`event_id`/`source`/`action` and in-range severity provided the raw values
themselves are non-empty (or absent) and the raw severity, when present,
already lies in 1–5; the code neither rejects empty present values nor
clamps severity. -/
theorem normalized_nonempty_when_raw_ok (raw : RawEvent) (sip : Option String)
    (fresh now : String) (hv : validate_event_schema raw = true) (hf : fresh ≠ "")
    (hid : ∀ s, raw.event_id = some s → s ≠ "")
    (hsrc : ∀ s, raw.source = some s → s ≠ "")
    (hact : ∀ s, raw.action = some s → s ≠ "")
    (hsev : ∀ n, raw.severity_hint = some n → 1 ≤ n ∧ n ≤ 5) :
    (normalize_event raw sip fresh now).event_id ≠ "" ∧
      (∃ s, (normalize_event raw sip fresh now).source = some s ∧ s ≠ "") ∧
      (∃ s, (normalize_event raw sip fresh now).action = some s ∧ s ≠ "") ∧
      1 ≤ (normalize_event raw sip fresh now).severity_hint ∧
      (normalize_event raw sip fresh now).severity_hint ≤ 5 := by
  simp only [validate_event_schema, Bool.and_eq_true, Option.isSome_iff_exists] at hv
  obtain ⟨⟨⟨⟨s1, hs1⟩, -⟩, ⟨a1, ha1⟩⟩, -⟩ := hv
  refine ⟨?_, ⟨s1, ?_, hsrc s1 hs1⟩, ⟨a1, ?_, hact a1 ha1⟩, ?_, ?_⟩
  · cases hid' : raw.event_id with
    | none => simpa [normalize_event, hid'] using hf
    | some s => simpa [normalize_event, hid'] using hid s hid'
  · simp [normalize_event, hs1]
  · simp [normalize_event, ha1]
  · cases hsv : raw.severity_hint with
    | none => simp [normalize_event, hsv]
    | some n => simpa [normalize_event, hsv] using (hsev n hsv).1
  · cases hsv : raw.severity_hint with
    | none => simp [normalize_event, hsv]
    | some n => simpa [normalize_event, hsv] using (hsev n hsv).2

/-- A well-formed raw event used as the C7 witness input. -/
def rawGood : RawEvent :=
  { event_id := none, source := some "cloudtrail", actor := some [],
    action := some "LoginSuccess", resource := some [], severity_hint := some 3 }

/-- Witness for C7 at `rawGood`. -/
theorem normalized_nonempty_when_raw_ok_witness :
    (normalize_event rawGood none "uuid-1" "t0").event_id ≠ "" ∧
      (∃ s, (normalize_event rawGood none "uuid-1" "t0").source = some s ∧ s ≠ "") ∧
      (∃ s, (normalize_event rawGood none "uuid-1" "t0").action = some s ∧ s ≠ "") ∧
      1 ≤ (normalize_event rawGood none "uuid-1" "t0").severity_hint ∧
      (normalize_event rawGood none "uuid-1" "t0").severity_hint ≤ 5 :=
  normalized_nonempty_when_raw_ok rawGood none "uuid-1" "t0" (by decide) (by decide)
    (by intro s h; simp [rawGood] at h) (by intro s h; simp [rawGood] at h; simp [← h])
    (by intro s h; simp [rawGood] at h; simp [← h])
    (by intro n h; simp [rawGood] at h; omega)

/-- A raw event whose `event_id` key is present but empty. -/
def rawEmptyId : RawEvent :=
  { event_id := some "", source := some "s", actor := some [], action := some "a",
    resource := some [] }

/-- Counterexample to C8: a present-but-empty raw `event_id` is used verbatim
instead of being replaced by a fresh identifier. -/
theorem event_id_empty_passthrough_cex :
    validate_event_schema rawEmptyId = true ∧
      (normalize_event rawEmptyId none "u-fresh" "t0").event_id = "" ∧
      (normalize_event rawEmptyId none "u-fresh" "t0").event_id ≠ "u-fresh" := by
  decide

/-- C8 (amended): normalization uses the raw `event_id` value iff the key is
present — even when the value is empty — and generates the fresh identifier
only when the key is absent. -/
theorem event_id_present_passthrough (raw : RawEvent) (sip : Option String)
    (fresh now : String) :
    (∀ v, raw.event_id = some v → (normalize_event raw sip fresh now).event_id = v) ∧
      (raw.event_id = none → (normalize_event raw sip fresh now).event_id = fresh) := by
  constructor
  · intro v hv
    simp [normalize_event, hv]
  · intro hv
    simp [normalize_event, hv]

/-- Witness for C8: the empty present value passes through, and an absent key
yields the fresh identifier. -/
theorem event_id_present_passthrough_witness :
    (normalize_event rawEmptyId none "u-fresh" "t0").event_id = "" ∧
      (normalize_event rawGood none "u-fresh" "t0").event_id = "u-fresh" :=
  ⟨(event_id_present_passthrough rawEmptyId none "u-fresh" "t0").1 "" rfl,
    (event_id_present_passthrough rawGood none "u-fresh" "t0").2 rfl⟩

/-! ## Enrichment orchestrator (`enricher-svc/app.py`) -/

/-- The fields of the normalized event read by `EventEnricher.enrich_event`. -/
structure EnrichInput where
  actor_ip : Option String := none
  resource_id : Option String := none
  resource_type : Option String := none
deriving DecidableEq

/-- The fallback bundle of `ThreatIntelligenceService.lookup_ip_reputation`. -/
def tiFallback : TIData := ⟨"unknown", 50, []⟩

/-- The fallback bundle of `GeoLocationService.lookup_ip_location`. -/
def geoFallback : GeoData := ⟨"XX", 0, "unknown"⟩

/-- The fallback bundle of `AssetContextService.get_asset_context`. -/
def assetFallback : AssetData := ⟨"unknown", 1, "unknown", []⟩

/-- A provider lookup whose internal failure is caught and converted to the
service's fixed fallback bundle. -/
def runLookup {α : Type} (fallback : α) : Except Unit α → α
  | Except.ok a => a
  | Except.error _ => fallback

/-- `EventEnricher.enrich_event`: threat-intel and geo lookups run iff the
actor IP is truthy, the asset lookup iff both resource id and type are
truthy; each provider outcome is an oracle argument. -/
def enrich_event (ev : EnrichInput) (tiR : Except Unit TIData)
    (geoR : Except Unit GeoData) (assetR : Except Unit AssetData) : Enrichments :=
  { threat_intel :=
      if truthyS ev.actor_ip then some (runLookup tiFallback tiR) else none,
    geo := if truthyS ev.actor_ip then some (runLookup geoFallback geoR) else none,
    asset_context :=
      if truthyS ev.resource_id && truthyS ev.resource_type
      then some (runLookup assetFallback assetR) else none }

/-- C9: lookups are attempted iff their branch condition holds, a skipped
lookup omits its sub-bundle, an attempted-but-failed lookup yields exactly
the documented fallback bundle, and an event with no actor IP and no
resolvable resource gets an enrichment with all three sub-bundles absent. -/
theorem enrich_branch_and_fallback (ev : EnrichInput) (tiR : Except Unit TIData)
    (geoR : Except Unit GeoData) (assetR : Except Unit AssetData) :
    ((enrich_event ev tiR geoR assetR).threat_intel.isSome = truthyS ev.actor_ip) ∧
      ((enrich_event ev tiR geoR assetR).geo.isSome = truthyS ev.actor_ip) ∧
      ((enrich_event ev tiR geoR assetR).asset_context.isSome =
        (truthyS ev.resource_id && truthyS ev.resource_type)) ∧
      (truthyS ev.actor_ip = true → tiR = Except.error () →
        (enrich_event ev tiR geoR assetR).threat_intel = some ⟨"unknown", 50, []⟩) ∧
      (truthyS ev.actor_ip = true → geoR = Except.error () →
        (enrich_event ev tiR geoR assetR).geo = some ⟨"XX", 0, "unknown"⟩) ∧
      ((truthyS ev.resource_id && truthyS ev.resource_type) = true →
        assetR = Except.error () →
        (enrich_event ev tiR geoR assetR).asset_context = some ⟨"unknown", 1, "unknown", []⟩) ∧
      (truthyS ev.actor_ip = false →
        (truthyS ev.resource_id && truthyS ev.resource_type) = false →
        enrich_event ev tiR geoR assetR = ⟨none, none, none⟩) := by
  refine ⟨?_, ?_, ?_, ?_, ?_, ?_, ?_⟩
  · cases hb : truthyS ev.actor_ip <;> simp [enrich_event, hb]
  · cases hb : truthyS ev.actor_ip <;> simp [enrich_event, hb]
  · cases hb : truthyS ev.resource_id && truthyS ev.resource_type <;>
      simp [enrich_event, hb]
  · intro hb he
    subst he
    simp [enrich_event, hb, runLookup, tiFallback]
  · intro hb he
    subst he
    simp [enrich_event, hb, runLookup, geoFallback]
  · intro hb he
    subst he
    simp [enrich_event, hb, runLookup, assetFallback]
  · intro h1 h2
    simp [enrich_event, h1, h2]

/-- Witness for C9: an event with a truthy IP and unresolvable resource, all
three providers failing. -/
theorem enrich_branch_and_fallback_witness :
    ((enrich_event ⟨some "203.0.113.9", none, none⟩ (Except.error ())
        (Except.error ()) (Except.error ())).threat_intel = some ⟨"unknown", 50, []⟩) ∧
      ((enrich_event ⟨some "203.0.113.9", none, none⟩ (Except.error ())
        (Except.error ()) (Except.error ())).geo = some ⟨"XX", 0, "unknown"⟩) ∧
      ((enrich_event ⟨none, none, none⟩ (Except.error ())
        (Except.error ()) (Except.error ())) = ⟨none, none, none⟩) :=
  ⟨(enrich_branch_and_fallback ⟨some "203.0.113.9", none, none⟩ (Except.error ())
      (Except.error ()) (Except.error ())).2.2.2.1 (by decide) rfl,
    (enrich_branch_and_fallback ⟨some "203.0.113.9", none, none⟩ (Except.error ())
      (Except.error ()) (Except.error ())).2.2.2.2.1 (by decide) rfl,
    (enrich_branch_and_fallback ⟨none, none, none⟩ (Except.error ())
      (Except.error ()) (Except.error ())).2.2.2.2.2.2 (by decide) (by decide)⟩

/-- A high-risk geo bundle agreeing with the geo fallback on `asn`/`org`. -/
def cnGeo : GeoData := ⟨"CN", 0, "unknown"⟩

/-- C10: the geo fallback's `country_code = "XX"` is in the fixed high-risk
set, so `is_high_risk_country = 1.0`, and the whole feature vector equals
the one for genuine high-risk-country traffic (`CN`, same asn) — hence the
rule engine and model score the two identically. -/
theorem geo_fallback_high_risk (c : Clock) (e : ScEvent) (ti : Option TIData)
    (ac : Option AssetData) :
    fget (extract_features c e ⟨ti, some geoFallback, ac⟩) "is_high_risk_country" 0 = 1 ∧
      high_risk_countries.contains geoFallback.country_code = true ∧
      extract_features c e ⟨ti, some geoFallback, ac⟩ =
        extract_features c e ⟨ti, some cnGeo, ac⟩ := by
  refine ⟨rfl, rfl, rfl⟩

/-! ## C3: feature ranges -/

/-- Enrichment carrying an out-of-range reputation score. -/
def overEnr : Enrichments := { threat_intel := some ⟨"clean", 150, []⟩ }

lemma indicator01 (b : Prop) [Decidable b] :
    (if b then (1:ℚ) else 0) = 0 ∨ (if b then (1:ℚ) else 0) = 1 := by
  split
  · right; rfl
  · left; rfl

lemma fget_extract_rep (c : Clock) (e : ScEvent) (enr : Enrichments) :
    fget (extract_features c e enr) "rep_score" 0 =
      ((enr.threat_intel.map TIData.rep_score).getD 50) / 100 := rfl

lemma fget_extract_crit (c : Clock) (e : ScEvent) (enr : Enrichments) :
    fget (extract_features c e enr) "asset_criticality" 0 =
      ((enr.asset_context.map AssetData.criticality).getD 1) / 5 := rfl

lemma fget_extract_sev (c : Clock) (e : ScEvent) (enr : Enrichments) :
    fget (extract_features c e enr) "severity_hint" 0 =
      (e.severity_hint.getD 1) / 5 := rfl

lemma fget_extract_hour (c : Clock) (e : ScEvent) (enr : Enrichments) :
    fget (extract_features c e enr) "hour_of_day" 0 = (c.hour : ℚ) / 24 := rfl

lemma fget_extract_dow (c : Clock) (e : ScEvent) (enr : Enrichments) :
    fget (extract_features c e enr) "day_of_week" 0 = (c.weekday : ℚ) / 7 := rfl

lemma ratio_bounds {x hi : ℚ} (h0 : 0 ≤ x) (h1 : x ≤ hi) (hhi : 0 < hi) :
    0 ≤ x / hi ∧ x / hi ≤ 1 :=
  ⟨div_nonneg h0 hhi.le, (div_le_one hhi).mpr h1⟩

/-- Counterexample to C3: a reputation score of 150 yields
`rep_score = 1.5 ∉ [0,1]` — the extractor divides but never clamps. -/
theorem ratio_feature_unclamped_cex :
    fget (extract_features ⟨0, 0⟩ {} overEnr) "rep_score" 0 = 3/2 ∧
      ¬(fget (extract_features ⟨0, 0⟩ {} overEnr) "rep_score" 0 ≤ 1) := by
  rw [fget_extract_rep]
  norm_num [overEnr]

/-- C3 (amended): when the enrichment inputs lie in their documented ranges
(reputation 0–100, criticality ≤ 5, severity hint ≤ 5) and the clock fields
are genuine clock values, every ratio feature lies in [0,1]; each indicator
feature is exactly 0 or 1 unconditionally. The original claim fails for
out-of-range inputs because the extractor never clamps. -/
theorem features_bounded_in_range (c : Clock) (e : ScEvent) (enr : Enrichments)
    (hh : c.hour < 24) (hw : c.weekday < 7)
    (hrep : ∀ t, enr.threat_intel = some t → 0 ≤ t.rep_score ∧ t.rep_score ≤ 100)
    (hcrit : ∀ a, enr.asset_context = some a → 0 ≤ a.criticality ∧ a.criticality ≤ 5)
    (hsev : ∀ q, e.severity_hint = some q → 0 ≤ q ∧ q ≤ 5) :
    (0 ≤ fget (extract_features c e enr) "rep_score" 0 ∧
        fget (extract_features c e enr) "rep_score" 0 ≤ 1) ∧
      (0 ≤ fget (extract_features c e enr) "asset_criticality" 0 ∧
        fget (extract_features c e enr) "asset_criticality" 0 ≤ 1) ∧
      (0 ≤ fget (extract_features c e enr) "severity_hint" 0 ∧
        fget (extract_features c e enr) "severity_hint" 0 ≤ 1) ∧
      (0 ≤ fget (extract_features c e enr) "hour_of_day" 0 ∧
        fget (extract_features c e enr) "hour_of_day" 0 ≤ 1) ∧
      (0 ≤ fget (extract_features c e enr) "day_of_week" 0 ∧
        fget (extract_features c e enr) "day_of_week" 0 ≤ 1) ∧
      (∀ k, k ∈ (["is_high_risk_country", "is_malicious", "is_suspicious",
          "is_prod_environment", "is_weekend", "is_business_hours", "is_login_action",
          "is_failed_action", "is_admin_action", "is_critical_resource"] : List String) →
        fget (extract_features c e enr) k 0 = 0 ∨
          fget (extract_features c e enr) k 0 = 1) := by
  refine ⟨?_, ?_, ?_, ?_, ?_, ?_⟩
  · rw [fget_extract_rep]
    cases ht : enr.threat_intel with
    | none => norm_num
    | some t =>
      obtain ⟨h0, h1⟩ := hrep t ht
      simpa using ratio_bounds h0 h1 (by norm_num)
  · rw [fget_extract_crit]
    cases ha : enr.asset_context with
    | none => norm_num
    | some a =>
      obtain ⟨h0, h1⟩ := hcrit a ha
      simpa using ratio_bounds h0 h1 (by norm_num)
  · rw [fget_extract_sev]
    cases hs : e.severity_hint with
    | none => norm_num
    | some q =>
      obtain ⟨h0, h1⟩ := hsev q hs
      simpa using ratio_bounds h0 h1 (by norm_num)
  · rw [fget_extract_hour]
    have : (c.hour : ℚ) ≤ 24 := by exact_mod_cast hh.le
    exact ratio_bounds (by positivity) this (by norm_num)
  · rw [fget_extract_dow]
    have : (c.weekday : ℚ) ≤ 7 := by exact_mod_cast hw.le
    exact ratio_bounds (by positivity) this (by norm_num)
  · intro k hk
    fin_cases hk <;> exact indicator01 _

/-- Witness for C3 at a concrete in-range input. -/
theorem features_bounded_in_range_witness :
    (0 ≤ fget (extract_features ⟨10, 2⟩ ⟨some "Login", some "s3", some 3⟩
          ⟨some ⟨"clean", 15, []⟩, some ⟨"US", 13335, "o"⟩, some ⟨"prod", 3, "own", []⟩⟩)
        "rep_score" 0 ∧
      fget (extract_features ⟨10, 2⟩ ⟨some "Login", some "s3", some 3⟩
          ⟨some ⟨"clean", 15, []⟩, some ⟨"US", 13335, "o"⟩, some ⟨"prod", 3, "own", []⟩⟩)
        "rep_score" 0 ≤ 1) ∧
    (0 ≤ fget (extract_features ⟨10, 2⟩ ⟨some "Login", some "s3", some 3⟩
          ⟨some ⟨"clean", 15, []⟩, some ⟨"US", 13335, "o"⟩, some ⟨"prod", 3, "own", []⟩⟩)
        "asset_criticality" 0 ∧
      fget (extract_features ⟨10, 2⟩ ⟨some "Login", some "s3", some 3⟩
          ⟨some ⟨"clean", 15, []⟩, some ⟨"US", 13335, "o"⟩, some ⟨"prod", 3, "own", []⟩⟩)
        "asset_criticality" 0 ≤ 1) ∧
    (0 ≤ fget (extract_features ⟨10, 2⟩ ⟨some "Login", some "s3", some 3⟩
          ⟨some ⟨"clean", 15, []⟩, some ⟨"US", 13335, "o"⟩, some ⟨"prod", 3, "own", []⟩⟩)
        "severity_hint" 0 ∧
      fget (extract_features ⟨10, 2⟩ ⟨some "Login", some "s3", some 3⟩
          ⟨some ⟨"clean", 15, []⟩, some ⟨"US", 13335, "o"⟩, some ⟨"prod", 3, "own", []⟩⟩)
        "severity_hint" 0 ≤ 1) ∧
    (0 ≤ fget (extract_features ⟨10, 2⟩ ⟨some "Login", some "s3", some 3⟩
          ⟨some ⟨"clean", 15, []⟩, some ⟨"US", 13335, "o"⟩, some ⟨"prod", 3, "own", []⟩⟩)
        "hour_of_day" 0 ∧
      fget (extract_features ⟨10, 2⟩ ⟨some "Login", some "s3", some 3⟩
          ⟨some ⟨"clean", 15, []⟩, some ⟨"US", 13335, "o"⟩, some ⟨"prod", 3, "own", []⟩⟩)
        "hour_of_day" 0 ≤ 1) ∧
    (0 ≤ fget (extract_features ⟨10, 2⟩ ⟨some "Login", some "s3", some 3⟩
          ⟨some ⟨"clean", 15, []⟩, some ⟨"US", 13335, "o"⟩, some ⟨"prod", 3, "own", []⟩⟩)
        "day_of_week" 0 ∧
      fget (extract_features ⟨10, 2⟩ ⟨some "Login", some "s3", some 3⟩
          ⟨some ⟨"clean", 15, []⟩, some ⟨"US", 13335, "o"⟩, some ⟨"prod", 3, "own", []⟩⟩)
        "day_of_week" 0 ≤ 1) ∧
    (∀ k, k ∈ (["is_high_risk_country", "is_malicious", "is_suspicious",
        "is_prod_environment", "is_weekend", "is_business_hours", "is_login_action",
        "is_failed_action", "is_admin_action", "is_critical_resource"] : List String) →
      fget (extract_features ⟨10, 2⟩ ⟨some "Login", some "s3", some 3⟩
          ⟨some ⟨"clean", 15, []⟩, some ⟨"US", 13335, "o"⟩, some ⟨"prod", 3, "own", []⟩⟩)
        k 0 = 0 ∨
        fget (extract_features ⟨10, 2⟩ ⟨some "Login", some "s3", some 3⟩
          ⟨some ⟨"clean", 15, []⟩, some ⟨"US", 13335, "o"⟩, some ⟨"prod", 3, "own", []⟩⟩)
        k 0 = 1) :=
  features_bounded_in_range ⟨10, 2⟩ ⟨some "Login", some "s3", some 3⟩
    ⟨some ⟨"clean", 15, []⟩, some ⟨"US", 13335, "o"⟩, some ⟨"prod", 3, "own", []⟩⟩
    (by decide) (by decide)
    (by intro t ht; simp at ht; rw [← ht]; norm_num)
    (by intro a ha; simp at ha; rw [← ha]; norm_num)
    (by intro q hq; simp at hq; rw [← hq]; norm_num)

/-! ## C6: degraded extraction -/

/-- Counterexample to C6: on the empty feature set the prediction branch
succeeds, so confidence is `min(0.3 + 0*0.7, 1) = 0.3`, not 0.1. -/
theorem empty_features_confidence_cex :
    ¬((score_from_features []).confidence = 1/10) := by
  have h : (score_from_features []).confidence = 3/10 := by
    simp only [score_from_features, predict_confidence, feature_completeness,
      List.length_nil, if_true]
    norm_num
  rw [h]
  norm_num

/-- C6 (amended): when feature extraction degrades to the empty feature set,
the pipeline still returns a result, with the neutral `model_score = 50` —
but `confidence = 0.3`, the completeness heuristic at completeness 0 (the
0.1 confidence arises only when model prediction itself raises). -/
theorem empty_features_neutral_result :
    (score_from_features []).model_score = 50 ∧
      (score_from_features []).confidence = 3/10 ∧
      (score_from_features []).rule_score = 0 ∧
      (score_from_features []).triggered_rules = [] := by
  have hw : weights_used ([] : Features) = 0 := rfl
  have hfget : ∀ k, fget ([] : Features) k 0 = 0 := fun k => rfl
  have hr : (rules.filter fun r => r.cond ([] : Features)) = [] := by
    simp only [rules, List.filter, fget, List.lookup, Option.getD]
    norm_num
  refine ⟨?_, ?_, ?_, ?_⟩
  · simp [score_from_features, predict_model_score, hw]
  · simp only [score_from_features, predict_confidence, feature_completeness,
      List.length_nil, if_true]
    norm_num
  · simp [score_from_features, calculate_rule_score, ruleLoop_spec, hr]
  · simp [score_from_features, calculate_rule_score, ruleLoop_spec, hr]

/-! ## C4: monotonicity in the reputation feature -/

/-- Overwriting the `rep_score` entry of a feature dict, leaving every other
feature unchanged: the two vectors of the monotonicity claim are
`setRep fs v` and `setRep fs v'`. -/
def setRep (fs : Features) (v : ℚ) : Features :=
  fs.map fun p => if p.1 = "rep_score" then (p.1, v) else p

lemma setRep_cons (a : String) (b v : ℚ) (rest : Features) :
    setRep ((a, b) :: rest) v =
      (if a = "rep_score" then (a, v) else (a, b)) :: setRep rest v := rfl

lemma lookup_setRep (fs : Features) (v : ℚ) (k : String) :
    (setRep fs v).lookup k =
      (fs.lookup k).map fun w => if k = "rep_score" then v else w := by
  induction fs with
  | nil => rfl
  | cons p rest ih =>
    rcases p with ⟨a, b⟩
    rw [setRep_cons]
    by_cases ha : a = "rep_score"
    · rw [if_pos ha]
      by_cases hk : k = a
      · subst hk
        simp [List.lookup, ha]
      · simp [List.lookup, beq_eq_false_iff_ne.mpr hk, ih]
    · rw [if_neg ha]
      by_cases hk : k = a
      · subst hk
        simp [List.lookup, ha]
      · simp [List.lookup, beq_eq_false_iff_ne.mpr hk, ih]

lemma weights_used_setRep (fs : Features) (v : ℚ) :
    weights_used (setRep fs v) = weights_used fs := by
  unfold weights_used
  congr 1
  apply List.filter_congr
  intro p _
  simp [lookup_setRep]

lemma wterm_setRep_ne (fs : Features) (v : ℚ) (k : String) (w : ℚ)
    (hk : ¬(k = "rep_score")) :
    wterm (setRep fs v) (k, w) = wterm fs (k, w) := by
  simp only [wterm, lookup_setRep, hk, if_false]
  cases fs.lookup k <;> simp

lemma wterm_setRep_rep (fs : Features) (v w : ℚ) :
    wterm (setRep fs v) ("rep_score", w) =
      match fs.lookup "rep_score" with
      | some _ => v * w
      | none => 0 := by
  simp only [wterm, lookup_setRep, if_pos rfl]
  cases fs.lookup "rep_score" <;> simp

lemma raw_score_setRep_le (fs : Features) {v v' : ℚ} (h : v ≤ v') :
    raw_score (setRep fs v) ≤ raw_score (setRep fs v') := by
  have hrep : wterm (setRep fs v) ("rep_score", 3/10) ≤
      wterm (setRep fs v') ("rep_score", 3/10) := by
    rw [wterm_setRep_rep, wterm_setRep_rep]
    cases fs.lookup "rep_score" with
    | none => simp
    | some w => simpa using by linarith
  simp only [raw_score, feature_weights, List.map_cons, List.map_nil, List.sum_cons,
    List.sum_nil]
  rw [wterm_setRep_ne fs v "is_malicious" (2/5) (by decide),
    wterm_setRep_ne fs v "is_high_risk_country" (1/5) (by decide),
    wterm_setRep_ne fs v "asset_criticality" (1/4) (by decide),
    wterm_setRep_ne fs v "is_prod_environment" (3/20) (by decide),
    wterm_setRep_ne fs v "is_admin_action" (3/10) (by decide),
    wterm_setRep_ne fs v "is_failed_action" (1/5) (by decide),
    wterm_setRep_ne fs v "is_business_hours" (-(1/10)) (by decide),
    wterm_setRep_ne fs v "severity_hint" (1/5) (by decide),
    wterm_setRep_ne fs v "is_critical_resource" (3/10) (by decide),
    wterm_setRep_ne fs v "is_suspicious" (1/4) (by decide),
    wterm_setRep_ne fs v' "is_malicious" (2/5) (by decide),
    wterm_setRep_ne fs v' "is_high_risk_country" (1/5) (by decide),
    wterm_setRep_ne fs v' "asset_criticality" (1/4) (by decide),
    wterm_setRep_ne fs v' "is_prod_environment" (3/20) (by decide),
    wterm_setRep_ne fs v' "is_admin_action" (3/10) (by decide),
    wterm_setRep_ne fs v' "is_failed_action" (1/5) (by decide),
    wterm_setRep_ne fs v' "is_business_hours" (-(1/10)) (by decide),
    wterm_setRep_ne fs v' "severity_hint" (1/5) (by decide),
    wterm_setRep_ne fs v' "is_critical_resource" (3/10) (by decide),
    wterm_setRep_ne fs v' "is_suspicious" (1/4) (by decide)]
  linarith [hrep]

lemma rawNorm_setRep_le (fs : Features) {v v' : ℚ} (h : v ≤ v') :
    rawNorm (setRep fs v) ≤ rawNorm (setRep fs v') := by
  unfold rawNorm
  rw [weights_used_setRep, weights_used_setRep]
  have hc : (0:ℚ) < max ((weights_used fs : ℚ) * (1/10)) 1 :=
    lt_of_lt_of_le one_pos (le_max_right _ _)
  exact (div_le_div_iff_of_pos_right hc).mpr (raw_score_setRep_le fs h)

lemma sigmoid_mono {x y : ℝ} (h : x ≤ y) : sigmoid x ≤ sigmoid y := by
  unfold sigmoid
  have hy : (0:ℝ) < 1 + Real.exp (-y) := by positivity
  apply one_div_le_one_div_of_le hy
  have := Real.exp_le_exp.mpr (neg_le_neg h)
  linarith

/-- C4: raising the `rep_score` feature while holding every other feature
fixed never decreases the model score. -/
theorem model_score_monotone_rep (fs : Features) {v v' : ℚ} (h : v ≤ v') :
    predict_model_score (setRep fs v) ≤ predict_model_score (setRep fs v') := by
  unfold predict_model_score
  rw [weights_used_setRep, weights_used_setRep]
  by_cases hw : 0 < weights_used fs
  · simp only [hw, if_true]
    have hmono : sigmoid ((rawNorm (setRep fs v) : ℚ) : ℝ) ≤
        sigmoid ((rawNorm (setRep fs v') : ℚ) : ℝ) :=
      sigmoid_mono (by exact_mod_cast rawNorm_setRep_le fs h)
    linarith
  · simp [hw]

/-- Witness for C4 at a one-entry feature dict and reputation values 0 ≤ 1. -/
theorem model_score_monotone_rep_witness :
    (0:ℚ) ≤ 1 ∧
      predict_model_score (setRep [("rep_score", 1/2)] 0) ≤
        predict_model_score (setRep [("rep_score", 1/2)] 1) :=
  ⟨by norm_num, model_score_monotone_rep [("rep_score", 1/2)] (by norm_num)⟩

/-! ## C5: end-to-end scenario A -/

lemma sigmoid_pos (x : ℝ) : 0 < sigmoid x := by
  unfold sigmoid
  positivity

lemma sigmoid_eq (x : ℝ) : sigmoid x = Real.exp x / (Real.exp x + 1) := by
  have h : Real.exp x ≠ 0 := (Real.exp_pos x).ne'
  rw [sigmoid, Real.exp_neg]
  field_simp

lemma sigmoid_ge_of_exp {x c : ℝ} (hc : c < 1) (h : c / (1 - c) ≤ Real.exp x) :
    c ≤ sigmoid x := by
  have hc1 : 0 < 1 - c := by linarith
  have hex := Real.exp_pos x
  have h' : c ≤ Real.exp x * (1 - c) := (div_le_iff₀ hc1).mp h
  rw [sigmoid_eq]
  rw [le_div_iff₀ (by positivity)]
  nlinarith

lemma sigmoid_le_of_exp {x c : ℝ} (hc1 : 0 < 1 - c) (h : Real.exp x ≤ c / (1 - c)) :
    sigmoid x ≤ c := by
  have hex := Real.exp_pos x
  have h' : Real.exp x * (1 - c) ≤ c := (le_div_iff₀ hc1).mp h
  rw [sigmoid_eq]
  rw [div_le_iff₀ (by positivity)]
  nlinarith

lemma exp_ge_pow (x : ℝ) (n : ℕ) (hn : 0 < n) (hx : 0 ≤ x) :
    (1 + x / n) ^ n ≤ Real.exp x := by
  have hnn : (n:ℝ) ≠ 0 := Nat.cast_ne_zero.mpr hn.ne'
  have h1 : (0:ℝ) ≤ 1 + x / n := by positivity
  have h2 : 1 + x / n ≤ Real.exp (x / n) := by
    have := Real.add_one_le_exp (x / n)
    linarith
  calc (1 + x / n) ^ n ≤ Real.exp (x / n) ^ n := pow_le_pow_left₀ h1 h2 n
    _ = Real.exp ((n:ℝ) * (x / n)) := (Real.exp_nat_mul _ n).symm
    _ = Real.exp x := by
        congr 1
        field_simp

lemma exp_le_pow (x : ℝ) (n : ℕ) (hx : 0 ≤ x) (hxn : x < n) :
    Real.exp x ≤ ((1 - x / n)⁻¹) ^ n := by
  have hn : 0 < n := by
    by_contra hc
    push_neg at hc
    have h0 : n = 0 := Nat.le_zero.mp hc
    rw [h0] at hxn
    simp at hxn
    linarith
  have hnn : (0:ℝ) < n := by exact_mod_cast hn
  have hpos : 0 < 1 - x / n := by
    have : x / n < 1 := (div_lt_one hnn).mpr hxn
    linarith
  have h3 : 1 - x / n ≤ Real.exp (-(x / n)) := by
    have := Real.add_one_le_exp (-(x / n))
    linarith
  have h2 : Real.exp (x / n) ≤ (1 - x / n)⁻¹ := by
    rw [show Real.exp (x / n) = (Real.exp (-(x / n)))⁻¹ by rw [Real.exp_neg, inv_inv]]
    exact inv_anti₀ hpos h3
  calc Real.exp x = Real.exp (x / n) ^ n := by
        rw [← Real.exp_nat_mul]
        congr 1
        field_simp
    _ ≤ ((1 - x / n)⁻¹) ^ n := pow_le_pow_left₀ (Real.exp_pos _).le h2 n

lemma exp_x1_ge : (17/3 : ℝ) ≤ Real.exp ((197:ℝ)/110) := by
  have h := exp_ge_pow ((197:ℝ)/110) 32 (by norm_num) (by norm_num)
  have h2 : (17/3 : ℝ) ≤ (1 + (197:ℝ)/110 / 32) ^ 32 := by norm_num
  linarith

lemma exp_x1_le : Real.exp ((197:ℝ)/110) ≤ 87/13 := by
  have h := exp_le_pow ((197:ℝ)/110) 16 (by norm_num) (by norm_num)
  have h2 : (((1:ℝ) - 197/110/16)⁻¹) ^ 16 ≤ 87/13 := by norm_num
  linarith

lemma exp_x2_ge : (29/6 : ℝ) ≤ Real.exp ((207:ℝ)/110) := by
  have h := exp_ge_pow ((207:ℝ)/110) 16 (by norm_num) (by norm_num)
  have h2 : (29/6 : ℝ) ≤ (1 + (207:ℝ)/110 / 16) ^ 16 := by norm_num
  linarith

lemma sigA_ge : (17/20 : ℝ) ≤ sigmoid ((197:ℝ)/110) := by
  apply sigmoid_ge_of_exp (by norm_num)
  rw [show ((17:ℝ)/20) / (1 - 17/20) = 17/3 by norm_num]
  exact exp_x1_ge

lemma sigA_le : sigmoid ((197:ℝ)/110) ≤ 87/100 := by
  apply sigmoid_le_of_exp (by norm_num)
  rw [show ((87:ℝ)/100) / (1 - 87/100) = 87/13 by norm_num]
  exact exp_x1_le

lemma sigB_ge : (29/35 : ℝ) ≤ sigmoid ((207:ℝ)/110) := by
  apply sigmoid_ge_of_exp (by norm_num)
  rw [show ((29:ℝ)/35) / (1 - 29/35) = 29/6 by norm_num]
  exact exp_x2_ge

/-- The scenario-A base event. -/
def eventA : ScEvent := ⟨some "AdminLoginFailed", some "database", some 5⟩

/-- The scenario-A enrichment: threat intel malicious at 90, asset prod with
criticality 5, and the geo bundle the mock produces for a public IP hashing
to the US entry (any of the four mock countries is outside the high-risk
set, so the choice does not matter). -/
def enrA : Enrichments :=
  ⟨some ⟨"malicious", 90, ["mock_threat_feed"]⟩, some ⟨"US", 13335, "ISP-US"⟩,
    some ⟨"prod", 5, "security-team", []⟩⟩

lemma extract_eventA (c : Clock) :
    extract_features c eventA enrA =
      [("asn", 13335), ("is_high_risk_country", 0), ("rep_score", 90/100),
       ("is_malicious", 1), ("is_suspicious", 0), ("asset_criticality", 5/5),
       ("is_prod_environment", 1), ("hour_of_day", (c.hour : ℚ)/24),
       ("day_of_week", (c.weekday : ℚ)/7),
       ("is_weekend", if 5 ≤ c.weekday then 1 else 0),
       ("is_business_hours", if 9 ≤ c.hour ∧ c.hour ≤ 17 then 1 else 0),
       ("is_login_action", 1), ("is_failed_action", 1), ("is_admin_action", 1),
       ("is_critical_resource", 1), ("severity_hint", 5/5)] := rfl

lemma fgetA_hrc (c : Clock) :
    fget (extract_features c eventA enrA) "is_high_risk_country" 0 = 0 := rfl

lemma fgetA_mal (c : Clock) :
    fget (extract_features c eventA enrA) "is_malicious" 0 = 1 := rfl

lemma fgetA_fail (c : Clock) :
    fget (extract_features c eventA enrA) "is_failed_action" 0 = 1 := rfl

lemma fgetA_susp (c : Clock) :
    fget (extract_features c eventA enrA) "is_suspicious" 0 = 0 := rfl

lemma fgetA_critres (c : Clock) :
    fget (extract_features c eventA enrA) "is_critical_resource" 0 = 1 := rfl

lemma fgetA_prod (c : Clock) :
    fget (extract_features c eventA enrA) "is_prod_environment" 0 = 1 := rfl

lemma fgetA_wkd (c : Clock) :
    fget (extract_features c eventA enrA) "is_weekend" 0 =
      (if 5 ≤ c.weekday then 1 else 0) := rfl

lemma fgetA_admin (c : Clock) :
    fget (extract_features c eventA enrA) "is_admin_action" 0 = 1 := rfl

lemma fgetA_sev (c : Clock) :
    fget (extract_features c eventA enrA) "severity_hint" 0 = 5/5 := rfl

lemma fgetA_bh (c : Clock) :
    fget (extract_features c eventA enrA) "is_business_hours" 0 =
      (if 9 ≤ c.hour ∧ c.hour ≤ 17 then 1 else 0) := rfl

lemma ruleA_eval (c : Clock) :
    calculate_rule_score (extract_features c eventA enrA) =
      ((if 9 ≤ c.hour ∧ c.hour ≤ 17 then (if 5 ≤ c.weekday then 100 else 95) else 100 : ℕ),
        ["malicious_ip_access", "critical_resource_access"] ++
          (if 5 ≤ c.weekday then ["weekend_admin_activity"] else []) ++
          ["high_severity_event"] ++
          (if 9 ≤ c.hour ∧ c.hour ≤ 17 then [] else ["off_hours_activity"])) := by
  by_cases hb : 9 ≤ c.hour ∧ c.hour ≤ 17 <;> by_cases hw : 5 ≤ c.weekday <;>
    norm_num [calculate_rule_score, ruleLoop_spec, rules, List.filter_cons,
      List.filter_nil, fgetA_hrc, fgetA_mal, fgetA_fail, fgetA_susp, fgetA_critres,
      fgetA_prod, fgetA_wkd, fgetA_admin, fgetA_sev, fgetA_bh, hb, hw,
      decide_eq_true_eq]

lemma weightsA (c : Clock) :
    weights_used (extract_features c eventA enrA) = 11 := by
  rw [extract_eventA]
  rfl

lemma wtermA_mal (c : Clock) :
    wterm (extract_features c eventA enrA) ("is_malicious", 2/5) = 1 * (2/5) := rfl

lemma wtermA_rep (c : Clock) :
    wterm (extract_features c eventA enrA) ("rep_score", 3/10) = 90/100 * (3/10) := rfl

lemma wtermA_hrc (c : Clock) :
    wterm (extract_features c eventA enrA) ("is_high_risk_country", 1/5) = 0 * (1/5) := rfl

lemma wtermA_crit (c : Clock) :
    wterm (extract_features c eventA enrA) ("asset_criticality", 1/4) = 5/5 * (1/4) := rfl

lemma wtermA_prod (c : Clock) :
    wterm (extract_features c eventA enrA) ("is_prod_environment", 3/20) = 1 * (3/20) := rfl

lemma wtermA_admin (c : Clock) :
    wterm (extract_features c eventA enrA) ("is_admin_action", 3/10) = 1 * (3/10) := rfl

lemma wtermA_fail (c : Clock) :
    wterm (extract_features c eventA enrA) ("is_failed_action", 1/5) = 1 * (1/5) := rfl

lemma wtermA_bh (c : Clock) :
    wterm (extract_features c eventA enrA) ("is_business_hours", -(1/10)) =
      (if 9 ≤ c.hour ∧ c.hour ≤ 17 then (1:ℚ) else 0) * (-(1/10)) := rfl

lemma wtermA_sev (c : Clock) :
    wterm (extract_features c eventA enrA) ("severity_hint", 1/5) = 5/5 * (1/5) := rfl

lemma wtermA_critres (c : Clock) :
    wterm (extract_features c eventA enrA) ("is_critical_resource", 3/10) = 1 * (3/10) := rfl

lemma wtermA_susp (c : Clock) :
    wterm (extract_features c eventA enrA) ("is_suspicious", 1/4) = 0 * (1/4) := rfl

lemma rawA (c : Clock) :
    raw_score (extract_features c eventA enrA) =
      if 9 ≤ c.hour ∧ c.hour ≤ 17 then (197:ℚ)/100 else 207/100 := by
  rw [raw_score]
  simp only [feature_weights, List.map_cons, List.map_nil, List.sum_cons, List.sum_nil,
    wtermA_mal, wtermA_rep, wtermA_hrc, wtermA_crit, wtermA_prod, wtermA_admin,
    wtermA_fail, wtermA_bh, wtermA_sev, wtermA_critres, wtermA_susp]
  by_cases hb : 9 ≤ c.hour ∧ c.hour ≤ 17 <;>
    simp only [hb, if_true, if_false, ite_true, ite_false] <;>
    norm_num

lemma rawNormA (c : Clock) :
    rawNorm (extract_features c eventA enrA) =
      if 9 ≤ c.hour ∧ c.hour ≤ 17 then (197:ℚ)/110 else 207/110 := by
  rw [rawNorm, weightsA, rawA]
  by_cases hb : 9 ≤ c.hour ∧ c.hour ≤ 17 <;>
    simp only [hb, if_true, if_false, ite_true, ite_false] <;>
    norm_num

lemma modelA (c : Clock) :
    predict_model_score (extract_features c eventA enrA) =
      100 * sigmoid (((if 9 ≤ c.hour ∧ c.hour ≤ 17 then (197:ℚ)/110 else 207/110) : ℚ) : ℝ) := by
  rw [predict_model_score, weightsA, rawNormA]
  norm_num

lemma fuse_ge (m r : ℝ) (q : ℤ) (h0 : 0 ≤ m * (7/10) + r * (3/10))
    (hq : (q:ℝ) ≤ m * (7/10) + r * (3/10)) (hq100 : q ≤ 100) :
    q ≤ fuse_scores m r := by
  rw [fuse_scores, pytrunc, if_pos h0]
  exact le_min (Int.le_floor.mpr hq) hq100

lemma fuse_lt (m r : ℝ) (q : ℤ) (h0 : 0 ≤ m * (7/10) + r * (3/10))
    (h : m * (7/10) + r * (3/10) < (q:ℝ)) :
    fuse_scores m r < q := by
  rw [fuse_scores, pytrunc, if_pos h0]
  exact lt_of_le_of_lt (min_le_left _ _) (Int.floor_lt.mpr h)

/-- C5 (amended): on scenario A the triggered rules include
malicious_ip_access, critical_resource_access and high_severity_event at
every evaluation time, and the final score is at least 88 — but not 90: at
business hours on a weekday the fused score is 88 (see the
counterexample). -/
theorem scenarioA_triggered_and_final_ge_88 (c : Clock) :
    "malicious_ip_access" ∈ (score_event c eventA enrA).triggered_rules ∧
      "critical_resource_access" ∈ (score_event c eventA enrA).triggered_rules ∧
      "high_severity_event" ∈ (score_event c eventA enrA).triggered_rules ∧
      88 ≤ (score_event c eventA enrA).final_score := by
  have hrr := ruleA_eval c
  have hm := modelA c
  have htrig : (score_event c eventA enrA).triggered_rules =
      (calculate_rule_score (extract_features c eventA enrA)).2 := rfl
  have hfin : (score_event c eventA enrA).final_score =
      fuse_scores (predict_model_score (extract_features c eventA enrA))
        (((calculate_rule_score (extract_features c eventA enrA)).1 : ℕ) : ℝ) := rfl
  refine ⟨?_, ?_, ?_, ?_⟩
  · rw [htrig, hrr]
    simp
  · rw [htrig, hrr]
    simp
  · rw [htrig, hrr]
    simp
  · rw [hfin, hm, hrr]
    by_cases hb : 9 ≤ c.hour ∧ c.hour ≤ 17
    · simp only [eq_true hb, ite_true]
      have hcast : (((197:ℚ)/110 : ℚ) : ℝ) = (197:ℝ)/110 := by norm_num
      rw [hcast]
      have hs := sigA_ge
      have hsp := sigmoid_pos ((197:ℝ)/110)
      have hR : (95:ℝ) ≤ (((if 5 ≤ c.weekday then 100 else 95 : ℕ)) : ℝ) := by
        by_cases hw : 5 ≤ c.weekday
        · simp [hw]
          norm_num
        · simp [hw]
      have hR0 : (0:ℝ) ≤ (((if 5 ≤ c.weekday then 100 else 95 : ℕ)) : ℝ) := by positivity
      have h88 : ((88:ℤ):ℝ) = 88 := by norm_num
      apply fuse_ge _ _ 88 (by nlinarith) (by rw [h88]; nlinarith) (by norm_num)
    · simp only [eq_false hb, ite_false]
      have hcast : (((207:ℚ)/110 : ℚ) : ℝ) = (207:ℝ)/110 := by norm_num
      rw [hcast]
      have hs := sigB_ge
      have hsp := sigmoid_pos ((207:ℝ)/110)
      have hc100 : (((100:ℕ)) : ℝ) = 100 := by norm_num
      rw [hc100]
      have h88 : ((88:ℤ):ℝ) = 88 := by norm_num
      apply fuse_ge _ _ 88 (by nlinarith) (by rw [h88]; nlinarith) (by norm_num)

/-- Counterexample to C5: at 12:00 on a Wednesday (business hours, not a
weekend) only the three unconditional rules trigger (rule score 95) and the
model score is below 87, so the fused final score is 88 or 89 — strictly
below the claimed 90. -/
theorem scenarioA_final_below_90_cex :
    (score_event ⟨12, 2⟩ eventA enrA).final_score < 90 := by
  have hm := modelA ⟨12, 2⟩
  have hrr := ruleA_eval ⟨12, 2⟩
  have hfin : (score_event ⟨12, 2⟩ eventA enrA).final_score =
      fuse_scores (predict_model_score (extract_features ⟨12, 2⟩ eventA enrA))
        (((calculate_rule_score (extract_features ⟨12, 2⟩ eventA enrA)).1 : ℕ) : ℝ) := rfl
  have hb : (9 ≤ (⟨12, 2⟩ : Clock).hour ∧ (⟨12, 2⟩ : Clock).hour ≤ 17) := by norm_num
  have hw : (5 ≤ (⟨12, 2⟩ : Clock).weekday) = False := by norm_num
  rw [hfin, hm, hrr]
  simp only [eq_true hb, hw, ite_true, ite_false]
  have hcast : (((197:ℚ)/110 : ℚ) : ℝ) = (197:ℝ)/110 := by norm_num
  rw [hcast]
  have hc95 : (((95:ℕ)) : ℝ) = 95 := by norm_num
  rw [hc95]
  have hs := sigA_le
  have hsp := sigmoid_pos ((197:ℝ)/110)
  have h90 : ((90:ℤ):ℝ) = 90 := by norm_num
  apply fuse_lt _ _ 90 (by nlinarith) (by rw [h90]; nlinarith)

end SecureOps
